import Mathlib

/-!
# Verification of the HackJusticeAPI backend

A shallow embedding of the HackJusticeAPI repository (an Express/Mongoose
backend for a quiz platform) together with proofs about its claims.

The document store is modelled as in-memory lists of records; each route
handler becomes a pure function from a store (plus request data) to a
result and an updated store.  Machine-generated identifiers and timestamps
are passed in explicitly.  The JavaScript null-deref-then-catch behaviour
(a TypeError caught by the generic handler, answered with HTTP 500) is
modelled as an explicit serverError branch.
-/

namespace HackJustice

/-! ## Data model, from src/models/User.js and src/models/Game.js -/

/-- An entry of the users completed-games array: a record holding a game id
(UserSchema field games, an array of one-field subdocuments). -/
structure GameRef where
  game : Nat
deriving DecidableEq

/-- A user record (UserSchema): email, password hash, admin flag, completed
games, creation date. -/
structure User where
  id : Nat
  email : String
  password : String
  admin : Bool
  games : List GameRef
  date : Nat
deriving DecidableEq

/-- An answer subdocument of a question (GameSchema). -/
structure Answer where
  correct : Bool
  content : String
deriving DecidableEq

/-- A question subdocument of a game (GameSchema). -/
structure Question where
  order : Option Nat
  content : String
  answers : List Answer
deriving DecidableEq

/-- A game record (GameSchema): title, icon, order, theory, questions and a
creation date.  The schema has no startText or endText field. -/
structure Game where
  id : Nat
  title : String
  icon : Option String
  order : Option Nat
  theory : Option String
  questions : List Question
  date : Nat
deriving DecidableEq

/-- The document store: the two collections. -/
structure Store where
  users : List User
  games : List Game
deriving DecidableEq

/-- User.findById. -/
def findUserById (s : Store) (i : Nat) : Option User :=
  s.users.find? (fun u => u.id == i)

/-- Game.findById. -/
def findGameById (s : Store) (i : Nat) : Option Game :=
  s.games.find? (fun g => g.id == i)

/-- User.findOne on the email field. -/
def findUserByEmail (s : Store) (e : String) : Option User :=
  s.users.find? (fun u => u.email == e)

/-! ## Token service

Modelled from the spec: the repository requires middleware/auth.js and the
jsonwebtoken sign and verify primitives, none of which appear under src/.
Only the two jwt.sign call sites are in src (src/routes/users.js lines
129 and 279, with expiresIn of 5d and 5 days respectively).  Per the spec,
issue produces a signed token embedding the user id with a 5-day expiry
horizon, and verify checks the signature and the expiry, yielding the
embedded id or an Invalid outcome.  Tokens are byte lists: a payload
encoding the pair (user id, expiry time) followed by a tag recomputable
from the payload and the server secret. -/

/-- Base-256 little-endian digits of a natural number, with explicit fuel
so that the kernel can evaluate it (the fuel n always suffices). -/
def natToBytesAux : Nat → Nat → List Nat
  | 0, _ => []
  | _ + 1, 0 => []
  | fuel + 1, n + 1 => (n + 1) % 256 :: natToBytesAux fuel ((n + 1) / 256)

/-- Base-256 little-endian digits of a natural number. -/
def natToBytes (n : Nat) : List Nat := natToBytesAux n n

/-- Read back a natural number from base-256 little-endian digits. -/
def bytesToNat : List Nat → Nat
  | [] => 0
  | d :: ds => d + 256 * bytesToNat ds

/-- Length-prefixed encoding of one natural number field. -/
def encNat (n : Nat) : List Nat := (natToBytes n).length :: natToBytes n

/-- Decode one length-prefixed field, returning the value and the rest. -/
def decNat : List Nat → Option (Nat × List Nat)
  | [] => none
  | len :: rest =>
    if len ≤ rest.length then some (bytesToNat (rest.take len), rest.drop len)
    else none

/-- Token payload: the user id followed by the expiry time. -/
def encodePayload (uid expiry : Nat) : List Nat := encNat uid ++ encNat expiry

/-- Decode a token payload into the user id and the expiry time. -/
def decodePayload (bs : List Nat) : Option (Nat × Nat) :=
  match decNat bs with
  | none => none
  | some (uid, rest) =>
    match decNat rest with
    | none => none
    | some (expiry, rest2) => if rest2.isEmpty then some (uid, expiry) else none

/-- Modelled from the spec: the signing primitive of the token service.
It is deterministic in the secret and the message, length preserving, and
injective in the message, standing in for the HMAC of the jsonwebtoken
library (absent from src/). -/
def signTag (secret : Nat) (msg : List Nat) : List Nat :=
  msg.map (fun b => b + secret + 1)

/-- The fixed expiry horizon: 5 days in seconds (expiresIn 5d at
src/routes/users.js line 132, 5 days at line 282). -/
def fiveDays : Nat := 5 * 24 * 60 * 60

/-- Modelled from the spec: issue(identity) of the token service.  The
token embeds the user id and an expiry of issuedAt plus 5 days, followed
by the signature tag over the payload. -/
def issue (secret uid issuedAt : Nat) : List Nat :=
  encodePayload uid (issuedAt + fiveDays) ++
    signTag secret (encodePayload uid (issuedAt + fiveDays))

/-- The payload half of a token. -/
def tokenPayload (token : List Nat) : List Nat := token.take (token.length / 2)

/-- The tag half of a token. -/
def tokenTag (token : List Nat) : List Nat := token.drop (token.length / 2)

/-- Modelled from the spec: verify(token) of the token service.  The tag is
recomputed from the payload and compared; on a match the payload is decoded
and the expiry checked against the current time; any failure yields none
(the Invalid outcome). -/
def verify (secret now : Nat) (token : List Nat) : Option Nat :=
  if tokenTag token = signTag secret (tokenPayload token) then
    match decodePayload (tokenPayload token) with
    | none => none
    | some (uid, expiry) => if now < expiry then some uid else none
  else none

/-! ## Auth middleware

Modelled from the spec: middleware/auth.js is required by both route files
but absent from src/.  Per the spec it rejects with one uniform
unauthorized outcome both when no token is present and when verification
fails, and otherwise attaches the embedded user id. -/

/-- The HTTP status paired with the middleware rejection (the spec
unauthorized outcome). -/
def authRejectStatus : Nat := 401

/-- Modelled from the spec: the auth middleware.  Error values carry the
rejection status. -/
def authMiddleware (secret now : Nat) (token : Option (List Nat)) : Except Nat Nat :=
  match token with
  | none => Except.error authRejectStatus
  | some tk =>
    match verify secret now tk with
    | none => Except.error authRejectStatus
    | some uid => Except.ok uid

/-! ## Route handlers -/

/-- Outcome of POST /users (src/routes/users.js lines 78-144), after body
validation. -/
inductive RegisterResult where
  | userExists
  | registered
deriving DecidableEq

/-- HTTP status of each register outcome (400 with a User already exists
error body, or 200 with a token). -/
def RegisterResult.status : RegisterResult → Nat
  | .userExists => 400
  | .registered => 200

/-- POST /users: look up the email; if a user exists answer 400 and leave
the store alone, otherwise insert a fresh non-admin user with the hashed
password.  The generated id, the bcrypt hash and the timestamp are passed
in explicitly. -/
def registerUser (s : Store) (email passwordHash : String) (newId now : Nat) :
    RegisterResult × Store :=
  match findUserByEmail s email with
  | some _ => (.userExists, s)
  | none =>
    (.registered,
      { s with
        users := s.users ++
          [{ id := newId, email := email, password := passwordHash,
             admin := false, games := [], date := now }] })

/-- Request body of POST /games as destructured by the handler
(src/routes/games.js line 143). -/
structure GameBody where
  title : String
  icon : Option String
  order : Option Nat
  startText : Option String
  endText : Option String
  questions : List Question
deriving DecidableEq

/-- The game record built by new Game(...) at src/routes/games.js lines
144-151: startText and endText are not GameSchema fields, so the store
discards them, and theory is never set. -/
def mkGame (newId now : Nat) (b : GameBody) : Game :=
  { id := newId, title := b.title, icon := b.icon, order := b.order,
    theory := none, questions := b.questions, date := now }

/-- Outcome of POST /games (src/routes/games.js lines 124-160), after body
validation.  serverError models the catch branch, reached in particular
when the acting user record is missing (admin.admin on null throws). -/
inductive CreateGameResult where
  | notAllowed
  | created
  | serverError
deriving DecidableEq

/-- HTTP status of each create-game outcome (401 at line 137, 200 at line
154, 500 at line 157). -/
def CreateGameResult.status : CreateGameResult → Nat
  | .notAllowed => 401
  | .created => 200
  | .serverError => 500

/-- POST /games: load the acting user; a missing record means the admin
check throws and the catch answers 500; a non-admin is answered 401 with
the store untouched; an admin gets the new game saved. -/
def createGame (s : Store) (actorId : Nat) (b : GameBody) (newId now : Nat) :
    CreateGameResult × Store :=
  match findUserById s actorId with
  | none => (.serverError, s)
  | some actor =>
    if actor.admin then
      (.created, { s with games := s.games ++ [mkGame newId now b] })
    else
      (.notAllowed, s)

/-- Outcome of GET /games/:game_id (src/routes/games.js lines 219-236). -/
inductive GetGameResult where
  | notFound
  | ok (g : Game)
deriving DecidableEq

/-- HTTP status of each single-game read outcome (404 at line 224, 200 at
line 227). -/
def GetGameResult.status : GetGameResult → Nat
  | .notFound => 404
  | .ok _ => 200

/-- GET /games/:game_id: answer 404 when the game is missing, otherwise
return it. -/
def getGame (s : Store) (gameId : Nat) : GetGameResult :=
  match findGameById s gameId with
  | none => .notFound
  | some g => .ok g

/-- Truthiness of a JavaScript callback result, where none models the
undefined value. -/
def jsTruthy : Option Bool → Bool
  | none => false
  | some b => b

/-- The dedup callback of PUT /games/complete/:game_id (src/routes/games.js
lines 277-279): the arrow-function body evaluates the comparison
element.game != game_id as a bare statement, and, having no return
statement, the callback returns undefined. -/
def completionCheck (gameId : Nat) (e : GameRef) : Option Bool :=
  let _ := e.game != gameId
  none

/-- Outcome of PUT /games/complete/:game_id (src/routes/games.js lines
267-295).  serverError models the catch branch, reached when the acting
user record is missing (user.games on null throws). -/
inductive CompleteResult where
  | notFound
  | serverError
  | completed (u : User)
deriving DecidableEq

/-- HTTP status of each completion outcome (404 at line 273, 200 at line
286, 500 at line 293). -/
def CompleteResult.status : CompleteResult → Nat
  | .notFound => 404
  | .serverError => 500
  | .completed _ => 200

/-- PUT /games/complete/:game_id: answer 404 when the game is missing; then
run Array.every with the dedup callback over the acting users games and
push a reference only when it returns true; save the user and return it. -/
def completeGame (s : Store) (actorId gameId : Nat) : CompleteResult × Store :=
  match findGameById s gameId with
  | none => (.notFound, s)
  | some _ =>
    match findUserById s actorId with
    | none => (.serverError, s)
    | some user =>
      let user2 :=
        if user.games.all (fun e => jsTruthy (completionCheck gameId e)) then
          { user with games := user.games ++ [{ game := gameId }] }
        else user
      (.completed user2,
        { s with users := s.users.map (fun u => if u.id == user.id then user2 else u) })

/-- Outcome of DELETE /games/:game_id (src/routes/games.js lines 326-352).
serverError models the catch branch, reached when the acting user record is
missing (admin.admin on null throws). -/
inductive DeleteGameResult where
  | notFound
  | notAllowed
  | deleted
  | serverError
deriving DecidableEq

/-- HTTP status of each game-deletion outcome (404 at line 332, 401 at line
338, 200 at line 342, 500 at line 350). -/
def DeleteGameResult.status : DeleteGameResult → Nat
  | .notFound => 404
  | .notAllowed => 401
  | .deleted => 200
  | .serverError => 500

/-- DELETE /games/:game_id: 404 when the game is missing (checked before
the admin flag is read); then an admin deletes the record, anyone else is
answered 401 with the store untouched. -/
def deleteGame (s : Store) (actorId gameId : Nat) : DeleteGameResult × Store :=
  match findGameById s gameId with
  | none => (.notFound, s)
  | some target =>
    match findUserById s actorId with
    | none => (.serverError, s)
    | some actor =>
      if actor.admin then
        (.deleted, { s with games := s.games.filter (fun g => !(g.id == target.id)) })
      else
        (.notAllowed, s)

/-- Outcome of DELETE /users/:user_id (src/routes/users.js lines 326-352).
serverError models the catch branch, reached when the acting user record is
missing (admin.admin on null throws). -/
inductive DeleteUserResult where
  | notFound
  | notAllowed
  | deleted
  | serverError
deriving DecidableEq

/-- HTTP status of each user-deletion outcome (404 at line 332, 401 at line
338, 200 at line 342, 500 at line 350). -/
def DeleteUserResult.status : DeleteUserResult → Nat
  | .notFound => 404
  | .notAllowed => 401
  | .deleted => 200
  | .serverError => 500

/-- DELETE /users/:user_id: 404 when the target is missing (checked before
the permission test); then the record is deleted when the actor is an admin
or is the target, otherwise the request is answered 401 with the store
untouched. -/
def deleteUser (s : Store) (actorId targetId : Nat) : DeleteUserResult × Store :=
  match findUserById s targetId with
  | none => (.notFound, s)
  | some target =>
    match findUserById s actorId with
    | none => (.serverError, s)
    | some actor =>
      if actor.admin || targetId == actorId then
        (.deleted, { s with users := s.users.filter (fun u => !(u.id == target.id)) })
      else
        (.notAllowed, s)

/-- GET /games (src/routes/games.js lines 180-188): no auth middleware on
the route; Game.find().sort with date descending, modelled as a stable sort
by descending creation date. -/
def listGames (s : Store) : List Game :=
  s.games.insertionSort (fun a b => b.date ≤ a.date)

/-! ## Concrete fixtures used by witnesses and counterexamples -/

/-- A stored game with id 2. -/
def exGameTwo : Game :=
  { id := 2, title := "quiz", icon := none, order := none, theory := none,
    questions := [], date := 0 }

/-- A user who has already completed game 1 (and not game 2). -/
def exUserTen : User :=
  { id := 10, email := "a@x.com", password := "h1", admin := false,
    games := [{ game := 1 }], date := 0 }

/-- Store for the completion scenarios: one user with a prior completion,
and game 2 present. -/
def exCompleteStore : Store := { users := [exUserTen], games := [exGameTwo] }

/-- A user with an empty completed-games list. -/
def exEmptyUser : User :=
  { id := 11, email := "b@x.com", password := "h2", admin := false,
    games := [], date := 0 }

/-- Store with a fresh user and game 2 present. -/
def exEmptyStore : Store := { users := [exEmptyUser], games := [exGameTwo] }

/-- A non-admin user. -/
def exNonAdmin : User :=
  { id := 20, email := "c@x.com", password := "h3", admin := false,
    games := [], date := 0 }

/-- Another user, target of deletion attempts. -/
def exTarget : User :=
  { id := 21, email := "d@x.com", password := "h4", admin := false,
    games := [], date := 0 }

/-- Store for the permission scenarios: a non-admin actor, another user,
and game 2 present. -/
def exPermStore : Store := { users := [exNonAdmin, exTarget], games := [exGameTwo] }

/-- An admin user. -/
def exAdmin : User :=
  { id := 1, email := "e@x.com", password := "h5", admin := true,
    games := [], date := 0 }

/-- A user to be deleted by the admin. -/
def exVictim : User :=
  { id := 2, email := "f@x.com", password := "h6", admin := false,
    games := [], date := 0 }

/-- Store for the user-deletion scenario. -/
def exDelStore : Store := { users := [exAdmin, exVictim], games := [] }

/-- A game-creation request body. -/
def exBody : GameBody :=
  { title := "t", icon := none, order := none, startText := none,
    endText := none, questions := [] }

/-- An older game that would come first by the order field. -/
def exGameOld : Game :=
  { id := 5, title := "old", icon := none, order := some 0, theory := none,
    questions := [], date := 1 }

/-- A newer game with a larger order value. -/
def exGameNew : Game :=
  { id := 6, title := "new", icon := none, order := some 5, theory := none,
    questions := [], date := 2 }

/-- Store for the game-listing scenario. -/
def exListStore : Store := { users := [], games := [exGameOld, exGameNew] }

/-! ## Helper lemmas -/

/-- The dedup callback returns undefined for every element, so the
Array.every test is true exactly when the list is empty. -/
lemma completion_all_eq_isEmpty (gid : Nat) (l : List GameRef) :
    (l.all fun e => jsTruthy (completionCheck gid e)) = l.isEmpty := by
  cases l <;> rfl

/-- A find-by-id hit pins down the id field of the record found. -/
lemma findUserById_id (s : Store) (i : Nat) (u : User)
    (h : findUserById s i = some u) : u.id = i := by
  unfold findUserById at h
  simpa using List.find?_some h

/-! ## Claim theorems -/

/-- C2: completing the same existing game twice is claimed to leave exactly
one reference in the users completed-games list.  Evaluating the handler at
a user whose list already holds a reference to game 1 shows that completing
game 2 twice leaves zero references to game 2: the dedup callback has no
return statement, so Array.every is false on any non-empty list and the
push is skipped even for a first-time completion. -/
theorem completion_dedup_defect_eval :
    (completeGame (completeGame exCompleteStore 10 2).2 10 2).2.users.map
      (fun u => u.games.countP (fun e => e.game == 2)) = [0] := by
  decide

/-- C3 counterexample: the claim states that every completion call appends
a new reference regardless of prior completions.  At a user whose list
holds one reference to a different game, completing game 2 appends
nothing: the result user and the store are unchanged. -/
theorem complete_appends_regardless_counterexample :
    (completeGame exCompleteStore 10 2).1 = CompleteResult.completed exUserTen ∧
    (completeGame exCompleteStore 10 2).2 = exCompleteStore := by
  decide

/-- C3 amended: for an existing game and a loaded acting user, a completion
call appends the reference exactly when the users completed-games list is
empty beforehand; the dedup callback returns undefined (falsy), so the
Array.every gate is true only for the empty list. -/
theorem complete_appends_iff_no_prior (s : Store) (actorId gameId : Nat)
    (u : User) (g : Game)
    (hg : findGameById s gameId = some g) (hu : findUserById s actorId = some u) :
    (completeGame s actorId gameId).1 =
      CompleteResult.completed
        (if u.games.isEmpty then { u with games := u.games ++ [{ game := gameId }] }
         else u) := by
  simp only [completeGame, hg, hu, completion_all_eq_isEmpty]

/-- C3 amended witness: a user with an empty list does get the reference
appended. -/
theorem complete_appends_iff_no_prior_witness :
    (completeGame exEmptyStore 11 2).1 =
      CompleteResult.completed
        (if exEmptyUser.games.isEmpty then
           { exEmptyUser with games := exEmptyUser.games ++ [{ game := 2 }] }
         else exEmptyUser) :=
  complete_appends_iff_no_prior exEmptyStore 11 2 exEmptyUser exGameTwo
    (by decide) (by decide)

/-- C5: a loaded non-admin acting user attempting game creation is rejected
on the permission branch and the store comes back unchanged, so no game
record is inserted by the rejected attempt. -/
theorem create_game_non_admin_rejected (s : Store) (actorId newId now : Nat)
    (b : GameBody) (a : User)
    (ha : findUserById s actorId = some a) (hadmin : a.admin = false) :
    createGame s actorId b newId now = (CreateGameResult.notAllowed, s) := by
  simp [createGame, ha, hadmin]

/-- C5 witness. -/
theorem create_game_non_admin_rejected_witness :
    createGame exPermStore 20 exBody 99 0 = (CreateGameResult.notAllowed, exPermStore) :=
  create_game_non_admin_rejected exPermStore 20 99 0 exBody exNonAdmin
    (by decide) (by decide)

/-- C7: for every operation referencing a target entity by id, a missing
target yields the not-found outcome with the store untouched, for every
acting user (so before any permission rejection could fire), and the
not-found status 404 is distinct from the permission-rejection status
401. -/
theorem missing_target_not_found (s : Store) (actorId uid gid : Nat)
    (hu : findUserById s uid = none) (hg : findGameById s gid = none) :
    deleteUser s actorId uid = (DeleteUserResult.notFound, s) ∧
    deleteGame s actorId gid = (DeleteGameResult.notFound, s) ∧
    getGame s gid = GetGameResult.notFound ∧
    completeGame s actorId gid = (CompleteResult.notFound, s) ∧
    DeleteUserResult.status DeleteUserResult.notFound ≠
      DeleteUserResult.status DeleteUserResult.notAllowed ∧
    DeleteGameResult.status DeleteGameResult.notFound ≠
      DeleteGameResult.status DeleteGameResult.notAllowed := by
  refine ⟨?_, ?_, ?_, ?_, by decide, by decide⟩ <;>
    simp [deleteUser, deleteGame, getGame, completeGame, hu, hg]

/-- C7 witness: ids 99 are absent from the completion store. -/
theorem missing_target_not_found_witness :
    deleteUser exCompleteStore 10 99 = (DeleteUserResult.notFound, exCompleteStore) ∧
    completeGame exCompleteStore 10 99 = (CompleteResult.notFound, exCompleteStore) := by
  have h := missing_target_not_found exCompleteStore 10 99 99 (by decide) (by decide)
  exact ⟨h.1, h.2.2.2.1⟩

/-- C8: when the acting user record cannot be loaded during game creation
or deletion of an existing game, the handler resolves to the server-error
outcome (the admin check throws on null and the catch answers 500) and the
store comes back unchanged: the mutation is never silently allowed. -/
theorem actor_load_failure_server_error (s : Store) (actorId newId now gid : Nat)
    (b : GameBody) (g : Game)
    (ha : findUserById s actorId = none) (hg : findGameById s gid = some g) :
    createGame s actorId b newId now = (CreateGameResult.serverError, s) ∧
    deleteGame s actorId gid = (DeleteGameResult.serverError, s) := by
  constructor <;> simp [createGame, deleteGame, ha, hg]

/-- C8 witness: actor id 99 is absent while game 2 exists. -/
theorem actor_load_failure_server_error_witness :
    createGame exPermStore 99 exBody 50 0 = (CreateGameResult.serverError, exPermStore) ∧
    deleteGame exPermStore 99 2 = (DeleteGameResult.serverError, exPermStore) :=
  actor_load_failure_server_error exPermStore 99 50 0 2 exBody exGameTwo
    (by decide) (by decide)

/-- C9: registration with an email already present in the store answers
with the duplicate-user rejection and returns the store unchanged, so no
second record is created. -/
theorem register_duplicate_email_conflict (s : Store) (email pw : String)
    (newId now : Nat) (u : User)
    (h : findUserByEmail s email = some u) :
    registerUser s email pw newId now = (RegisterResult.userExists, s) := by
  simp [registerUser, h]

/-- C9 witness. -/
theorem register_duplicate_email_conflict_witness :
    registerUser exPermStore "c@x.com" "pw" 60 0 = (RegisterResult.userExists, exPermStore) :=
  register_duplicate_email_conflict exPermStore "c@x.com" "pw" 60 0 exNonAdmin
    (by decide)

/-- C4 counterexample: the claim states that permission rejections use a
forbidden status distinct from the unauthorized status of the middleware.
At a concrete non-admin creation attempt the permission rejection carries
status 401, the very status the middleware uses for a missing token: the
two statuses are equal, not distinct. -/
theorem forbidden_status_not_distinct_counterexample :
    (createGame exPermStore 20 exBody 99 0).1 = CreateGameResult.notAllowed ∧
    CreateGameResult.status (createGame exPermStore 20 exBody 99 0).1 = 401 ∧
    authMiddleware 3 0 none = Except.error 401 ∧
    CreateGameResult.status CreateGameResult.notAllowed = authRejectStatus :=
  ⟨by decide, by decide, rfl, by decide⟩

/-- C4 amended: every permission rejection (non-admin game creation,
non-admin game deletion, non-admin deletion of another user) carries
status 401, the same numeric status the middleware uses for missing or
invalid tokens; the outcomes are not distinct statuses and differ only in
their bodies. -/
theorem permission_rejection_status_matches_auth (s : Store)
    (actorId newId now gid targetId : Nat) (b : GameBody)
    (a tgt : User) (g : Game)
    (ha : findUserById s actorId = some a) (hadmin : a.admin = false)
    (hg : findGameById s gid = some g) (ht : findUserById s targetId = some tgt)
    (hne : actorId ≠ targetId) :
    CreateGameResult.status (createGame s actorId b newId now).1 = authRejectStatus ∧
    DeleteGameResult.status (deleteGame s actorId gid).1 = authRejectStatus ∧
    DeleteUserResult.status (deleteUser s actorId targetId).1 = authRejectStatus := by
  have hne2 : (targetId == actorId) = false := by
    simp [Ne.symm hne]
  refine ⟨?_, ?_, ?_⟩ <;>
    simp [createGame, deleteGame, deleteUser, ha, hadmin, hg, ht, hne2,
      CreateGameResult.status, DeleteGameResult.status, DeleteUserResult.status,
      authRejectStatus]

/-- C4 amended witness. -/
theorem permission_rejection_status_matches_auth_witness :
    CreateGameResult.status (createGame exPermStore 20 exBody 99 0).1 = authRejectStatus ∧
    DeleteGameResult.status (deleteGame exPermStore 20 2).1 = authRejectStatus ∧
    DeleteUserResult.status (deleteUser exPermStore 20 21).1 = authRejectStatus :=
  permission_rejection_status_matches_auth exPermStore 20 99 0 2 21 exBody
    exNonAdmin exTarget exGameTwo (by decide) (by decide) (by decide) (by decide)
    (by decide)

/-- C6: with the target and the acting user both loaded, user deletion
succeeds exactly when the actor is an admin or is the target; on success
the target becomes unfindable, otherwise the request lands on the
permission-rejection branch, the store comes back unchanged and the target
remains findable. -/
theorem delete_user_policy (s : Store) (actorId targetId : Nat)
    (actor target : User)
    (ht : findUserById s targetId = some target)
    (ha : findUserById s actorId = some actor) :
    ((actor.admin = true ∨ actorId = targetId) →
      (deleteUser s actorId targetId).1 = DeleteUserResult.deleted ∧
      findUserById (deleteUser s actorId targetId).2 targetId = none) ∧
    (actor.admin = false → actorId ≠ targetId →
      deleteUser s actorId targetId = (DeleteUserResult.notAllowed, s) ∧
      findUserById (deleteUser s actorId targetId).2 targetId = some target) := by
  have hid : target.id = targetId := findUserById_id s targetId target ht
  constructor
  · intro hcond
    have hc : (actor.admin || targetId == actorId) = true := by
      rcases hcond with h | h
      · simp [h]
      · simp [h]
    refine ⟨by simp [deleteUser, ht, ha, hc], ?_⟩
    simp only [deleteUser, ht, ha, hc]
    simp [findUserById, hid, List.find?_filter]
  · intro h1 h2
    have hc : (actor.admin || targetId == actorId) = false := by
      simp [h1, Ne.symm h2]
    constructor
    · simp [deleteUser, ht, ha, hc]
    · simp only [deleteUser, ht, ha, hc]
      exact ht

/-- C6 witness: the admin (id 1) deletes user 2, who becomes unfindable. -/
theorem delete_user_policy_witness :
    (deleteUser exDelStore 1 2).1 = DeleteUserResult.deleted ∧
    findUserById (deleteUser exDelStore 1 2).2 2 = none := by
  have h := delete_user_policy exDelStore 1 2 exAdmin exVictim (by decide) (by decide)
  exact h.1 (Or.inl rfl)

/-- Totality of the descending-date comparison used by the game listing. -/
instance : IsTotal Game (fun a b => b.date ≤ a.date) :=
  ⟨fun a b => Nat.le_total b.date a.date⟩

/-- Transitivity of the descending-date comparison used by the game
listing. -/
instance : IsTrans Game (fun a b => b.date ≤ a.date) :=
  ⟨fun _ _ _ hab hbc => le_trans hbc hab⟩

/-- C10: the game listing returns every stored game (a permutation of the
collection), sorted by creation date in descending order; on a concrete
store the newer game comes first even though its order field is larger, so
the listing is not ordered by the order field.  The listing takes no
identity: the route carries no auth middleware. -/
theorem list_games_sorted_by_date_desc (s : Store) :
    (listGames s).Perm s.games ∧
    List.Sorted (fun a b => b.date ≤ a.date) (listGames s) ∧
    listGames exListStore = [exGameNew, exGameOld] ∧
    ¬ List.Sorted (fun a b : Game => a.order.getD 0 ≤ b.order.getD 0)
        (listGames exListStore) := by
  exact ⟨List.perm_insertionSort _ _, List.sorted_insertionSort _ _,
    by decide, by decide⟩

/-! ## Token service lemmas -/

/-- The fuel argument never runs out: the fuel bounds the value. -/
lemma bytesToNat_natToBytesAux :
    ∀ fuel n, n ≤ fuel → bytesToNat (natToBytesAux fuel n) = n := by
  intro fuel
  induction fuel with
  | zero =>
    intro n h
    have hn : n = 0 := Nat.le_zero.mp h
    subst hn
    rfl
  | succ f ih =>
    intro n h
    match n with
    | 0 => rfl
    | m + 1 =>
      have hdiv : (m + 1) / 256 ≤ f := by
        have h1 : (m + 1) / 256 < m + 1 := Nat.div_lt_self (Nat.succ_pos m) (by norm_num)
        omega
      simp only [natToBytesAux, bytesToNat]
      rw [ih _ hdiv]
      omega

/-- Byte encoding of a natural number decodes back. -/
lemma bytesToNat_natToBytes (n : Nat) : bytesToNat (natToBytes n) = n :=
  bytesToNat_natToBytesAux n n le_rfl

/-- Decoding a length-prefixed field consumes exactly the field. -/
lemma decNat_encNat (n : Nat) (rest : List Nat) :
    decNat (encNat n ++ rest) = some (n, rest) := by
  simp [decNat, encNat, List.take_left, List.drop_left, bytesToNat_natToBytes]

/-- A payload encoding decodes back to the pair it came from. -/
lemma decodePayload_encodePayload (uid expiry : Nat) :
    decodePayload (encodePayload uid expiry) = some (uid, expiry) := by
  have h2 : decNat (encNat expiry) = some (expiry, []) := by
    simpa using decNat_encNat expiry []
  simp [decodePayload, encodePayload, decNat_encNat, h2]

/-- The tag has the length of the message it signs. -/
lemma length_signTag (secret : Nat) (p : List Nat) :
    (signTag secret p).length = p.length := by
  simp [signTag]

/-- The signing primitive is injective in the message. -/
lemma signTag_injective (secret : Nat) : Function.Injective (signTag secret) := by
  apply List.map_injective_iff.mpr
  intro a b h
  dsimp only at h
  omega

/-- Splitting a token built from two equal-length halves: the payload. -/
lemma tokenPayload_two_halves (p q : List Nat) (h : q.length = p.length) :
    tokenPayload (p ++ q) = p := by
  unfold tokenPayload
  have hl : (p ++ q).length / 2 = p.length := by
    rw [List.length_append, h]
    omega
  rw [hl, List.take_left]

/-- Splitting a token built from two equal-length halves: the tag. -/
lemma tokenTag_two_halves (p q : List Nat) (h : q.length = p.length) :
    tokenTag (p ++ q) = q := by
  unfold tokenTag
  have hl : (p ++ q).length / 2 = p.length := by
    rw [List.length_append, h]
    omega
  rw [hl, List.drop_left]

/-- An unexpired issued token verifies to the embedded user id. -/
lemma verify_issue (secret uid issuedAt now : Nat) (h : now < issuedAt + fiveDays) :
    verify secret now (issue secret uid issuedAt) = some uid := by
  unfold issue verify
  rw [tokenPayload_two_halves _ _ (length_signTag _ _),
    tokenTag_two_halves _ _ (length_signTag _ _), if_pos rfl,
    decodePayload_encodePayload]
  simp [h]

/-- Changing any single byte of a well-formed token makes verification
fail: a change in the payload half no longer matches the stored tag (the
signing primitive is injective), and a change in the tag half no longer
matches the recomputed tag. -/
lemma verify_set_ne (secret now : Nat) (p : List Nat) (i b : Nat)
    (hi : i < (p ++ signTag secret p).length)
    (hb : b ≠ (p ++ signTag secret p).get ⟨i, hi⟩) :
    verify secret now ((p ++ signTag secret p).set i b) = none := by
  have hsl : (signTag secret p).length = p.length := length_signTag secret p
  rw [List.set_append]
  by_cases hlt : i < p.length
  · rw [if_pos hlt]
    have hlen : (signTag secret p).length = (p.set i b).length := by
      rw [hsl, List.length_set]
    unfold verify
    rw [tokenPayload_two_halves _ _ hlen, tokenTag_two_halves _ _ hlen, if_neg]
    intro hEq
    have heq2 : p = p.set i b := signTag_injective secret hEq
    have h1 : p[i]? = (p.set i b)[i]? := congrArg (fun l => l[i]?) heq2
    rw [List.getElem?_set_self hlt, List.getElem?_eq_getElem hlt] at h1
    apply hb
    rw [List.get_eq_getElem, List.getElem_append_left hlt]
    exact (Option.some_injective _ h1).symm
  · rw [if_neg hlt]
    have hge : p.length ≤ i := Nat.le_of_not_lt hlt
    have hj : i - p.length < (signTag secret p).length := by
      rw [hsl]
      rw [List.length_append, hsl] at hi
      omega
    have hlen : ((signTag secret p).set (i - p.length) b).length = p.length := by
      rw [List.length_set, hsl]
    unfold verify
    rw [tokenPayload_two_halves _ _ hlen, tokenTag_two_halves _ _ hlen, if_neg]
    intro hEq
    have h1 : ((signTag secret p).set (i - p.length) b)[i - p.length]? =
        (signTag secret p)[i - p.length]? := congrArg (fun l => l[i - p.length]?) hEq
    rw [List.getElem?_set_self hj, List.getElem?_eq_getElem hj] at h1
    apply hb
    rw [List.get_eq_getElem, List.getElem_append_right hge]
    exact Option.some_injective _ h1

/-- C1: issuing a token for a user id and verifying it before the expiry
recovers the same id; the embedded expiry is exactly the issuance time plus
the fixed 5-day horizon; and a token with any single byte changed fails
verification at every time. -/
theorem issue_verify_roundtrip_and_tamper (secret uid issuedAt now now2 i b : Nat)
    (hnow : now < issuedAt + fiveDays)
    (hi : i < (issue secret uid issuedAt).length)
    (hb : b ≠ (issue secret uid issuedAt).get ⟨i, hi⟩) :
    verify secret now (issue secret uid issuedAt) = some uid ∧
    decodePayload (tokenPayload (issue secret uid issuedAt)) =
      some (uid, issuedAt + fiveDays) ∧
    verify secret now2 ((issue secret uid issuedAt).set i b) = none := by
  refine ⟨verify_issue secret uid issuedAt now hnow, ?_,
    verify_set_ne secret now2 (encodePayload uid (issuedAt + fiveDays)) i b hi hb⟩
  show decodePayload
      (tokenPayload (encodePayload uid (issuedAt + fiveDays) ++
        signTag secret (encodePayload uid (issuedAt + fiveDays)))) =
    some (uid, issuedAt + fiveDays)
  rw [tokenPayload_two_halves _ _ (length_signTag _ _)]
  exact decodePayload_encodePayload _ _

/-- C1 witness: a concrete issued token round-trips, and changing its first
byte makes verification fail. -/
theorem issue_verify_roundtrip_and_tamper_witness :
    verify 3 1 (issue 3 7 0) = some 7 ∧
    verify 3 1 ((issue 3 7 0).set 0 5) = none := by
  have h := issue_verify_roundtrip_and_tamper 3 7 0 1 1 0 5
    (by decide) (by decide) (by decide)
  exact ⟨h.1, h.2.2⟩

end HackJustice
